import Mathlib

/-!
Verification of the `SimpleRuleEngine` clinical rule engine
(`backend/simple_rule_engine.py`): temporal overlap checking, rule table
lookup, and the three analysis orchestrators, shallowly embedded in Lean.

Modelling conventions:
* Timestamps are embedded as `TimeVal`: either a value that `pd.to_datetime`
  parses (carrying an integer time point) or a malformed one (on which
  `pd.to_datetime` raises, modelled as `none`).
* A Python record dictionary is a `RecordDict`: each of the keys `value`,
  `start_time`, `end_time` is either present (`some`) or absent (`none`);
  `extra` records whether the dictionary holds further keys (this only
  affects Python truthiness of the dictionary).
* Dictionary subscripting that can raise `KeyError`/`TypeError` is embedded
  in `Except PyErr`; code whose subscripting is wrapped in `try/except`
  (the overlap checker) stays a total function.
* The measurement store is a function `Store` from patient id and concept
  name to the list of first-column cells of the rows the query returns.
* Result dictionaries become structures whose optionally-present keys
  (`error`, `temporal_overlap`, `clinical_inputs`) have `Option` type,
  `none` meaning the key is absent.
-/

set_option autoImplicit false

namespace SimpleRuleEngine

/-- A timestamp value as stored in a record: either parseable by
`pd.to_datetime` (with its time point abstracted as an integer) or
malformed (parsing raises). -/
inductive TimeVal where
  | valid (t : Int)
  | malformed
  deriving DecidableEq, Repr

/-- `pd.to_datetime`: returns the parsed time point, or `none` where the
Python call raises. -/
def to_datetime : TimeVal → Option Int
  | .valid t => some t
  | .malformed => none

/-- A record dictionary as returned by the measurement store. Each field is
`some` when the corresponding key is present. `extra` is true when the
dictionary holds additional keys (so a dictionary with no modelled keys can
still be truthy). -/
structure RecordDict where
  value : Option String
  start_time : Option TimeVal
  end_time : Option TimeVal
  extra : Bool
  deriving DecidableEq, Repr

/-- Python truthiness of a record dictionary: non-empty. -/
def RecordDict.truthy (r : RecordDict) : Bool :=
  r.value.isSome || r.start_time.isSome || r.end_time.isSome || r.extra

/-- Python exceptions that the engine's dictionary subscripting can raise. -/
inductive PyErr where
  | keyError (key : String)
  | typeError
  deriving DecidableEq, Repr

/-- `record['value']`: the value, or a `KeyError` when the key is absent. -/
def RecordDict.getValue (r : RecordDict) : Except PyErr String :=
  match r.value with
  | some v => .ok v
  | none => .error (.keyError "value")

/-- Truthiness of `record` when it is `None` or a dictionary. -/
def truthyOpt : Option RecordDict → Bool
  | none => false
  | some r => r.truthy

/-- `record['value'] if record else None` (the conditional guards on
truthiness, so subscripting a truthy dictionary missing the key still
raises). -/
def condValue : Option RecordDict → Except PyErr (Option String)
  | none => .ok none
  | some r => if r.truthy then (r.getValue).map some else .ok none

/-- `record['value']` where `record` may be `None` (in which case Python
raises `TypeError`). -/
def getValueOpt : Option RecordDict → Except PyErr String
  | none => .error .typeError
  | some r => r.getValue

/-- Parse one record's `start_time` and `end_time` inside the checker's
`try` block: `none` when any subscript or parse raises (the bare `except`
catches everything). -/
def parseRec (r : RecordDict) : Option (Int × Int) :=
  match r.start_time with
  | none => none
  | some st =>
    match to_datetime st with
    | none => none
    | some s =>
      match r.end_time with
      | none => none
      | some et =>
        match to_datetime et with
        | none => none
        | some e => some (s, e)

/-- The record-conversion loop of `check_temporal_overlap`: walks the list
in order; `none` as soon as a record is `None` or its times fail to parse
(both make the Python function return `False`). -/
def parseAll : List (Option RecordDict) → Option (List (Int × Int))
  | [] => some []
  | none :: _ => none
  | some r :: rest =>
    match parseRec r with
    | none => none
    | some p => (parseAll rest).map (fun l => p :: l)

/-- `max(record['start'] for record in datetime_records)` over a non-empty
list (the empty case is unreachable in `check_temporal_overlap`). -/
def latestStart : List (Int × Int) → Int
  | [] => 0
  | p :: ps => ps.foldl (fun acc q => max acc q.fst) p.fst

/-- `min(record['end'] for record in datetime_records)` over a non-empty
list. -/
def earliestEnd : List (Int × Int) → Int
  | [] => 0
  | p :: ps => ps.foldl (fun acc q => min acc q.snd) p.snd

/-- `SimpleRuleEngine.check_temporal_overlap`: true for fewer than two
records; false when a record is `None` or a timestamp fails to parse;
otherwise true iff the latest start is at most the earliest end. -/
def check_temporal_overlap (records : List (Option RecordDict)) : Bool :=
  if records.length < 2 then true
  else
    match parseAll records with
    | none => false
    | some prs => decide (latestStart prs ≤ earliestEnd prs)

theorem parseAll_eq_none_of_mem_none {l : List (Option RecordDict)}
    (h : none ∈ l) : parseAll l = none := by
  induction l with
  | nil => cases h
  | cons hd tl ih =>
    cases hd with
    | none => rfl
    | some r =>
      have htl : none ∈ tl := by
        rcases List.mem_cons.mp h with h1 | h1
        · exact absurd h1 (by simp)
        · exact h1
      simp only [parseAll]
      cases parseRec r with
      | none => rfl
      | some p => rw [ih htl]; rfl

/-! ### Rule table lookup engine

`RuleProcessor.apply_rule` lives in `backend/rule_processor.py`, which is a
collaborator module of this repository outside the verified source tree, so
it is modelled from the specification. The rule tables themselves
(`HEMATOLOGICAL_RULES`, `SYSTEMIC_TOXICITY_RULES`, `TREATMENT_RULES`) are
opaque configuration data; every definition and theorem is parameterised
over them. -/

/-- One row of a rule table: an ordered tuple of named categorical input
values mapped to one output value. -/
structure RuleRow where
  inputs : List (String × String)
  output : String
  deriving DecidableEq, Repr

/-- A named rule table: a finite ordered collection of rows. -/
abbrev RuleTable := List RuleRow

/-- Look a field name up in a mapping of named input values. -/
def lookupField (inputs : List (String × String)) (k : String) : Option String :=
  match inputs.find? (fun p => p.fst == k) with
  | some p => some p.snd
  | none => none

/-- A row matches iff every one of its declared input fields equals the
corresponding entry of `inputs`; a field absent from `inputs` never
equals a declared value, so it makes the row a non-match. -/
def rowMatches (inputs : List (String × String)) (row : RuleRow) : Bool :=
  row.inputs.all (fun p => lookupField inputs p.fst == some p.snd)

/-- Modelled from the spec: `RuleProcessor.apply_rule` of
`backend/rule_processor.py` (not under the verified source tree).
Exact-match table lookup: returns the output of the first fully matching
row, and `none` when no row matches or `inputs` misses a field of the
table's schema (fail-closed, never raises). -/
def apply_rule (table : RuleTable) (inputs : List (String × String)) : Option String :=
  match table.find? (rowMatches inputs) with
  | some row => some row.output
  | none => none

/-- Python truthiness of an optional string (`None` and `""` are falsy). -/
def optStrTruthy : Option String → Bool
  | none => false
  | some s => !s.isEmpty

/-- `SimpleRuleEngine.get_hematological_state`: `None` when either input is
falsy, otherwise the 2:1 AND table lookup. -/
def get_hematological_state (table : RuleTable)
    (hemoglobin_state wbc_level : Option String) : Option String :=
  if !optStrTruthy hemoglobin_state || !optStrTruthy wbc_level then none
  else
    apply_rule table
      [("hemoglobin_state", hemoglobin_state.getD ""),
       ("wbc_level", wbc_level.getD "")]

/-- `SimpleRuleEngine.get_systemic_toxicity_grade`: `None` unless all four
inputs are truthy, otherwise the 4:1 table lookup. -/
def get_systemic_toxicity_grade (table : RuleTable)
    (fever_level chills skin_look allergic_state : Option String) : Option String :=
  if !(optStrTruthy fever_level && optStrTruthy chills &&
       optStrTruthy skin_look && optStrTruthy allergic_state) then none
  else
    apply_rule table
      [("fever_level", fever_level.getD ""),
       ("chills", chills.getD ""),
       ("skin_look", skin_look.getD ""),
       ("allergic_state", allergic_state.getD "")]

/-! ### Measurement store and fetching -/

/-- The measurement store: for a patient id and concept name, the list of
first-column cells of the rows `DataAccess.fetch_records` returns for the
latest-abstracted-value query. -/
def Store : Type := String → String → List RecordDict

/-- `SimpleRuleEngine.get_latest_abstracted_value`: `None` when the query
returns no rows, otherwise the first row's first column. -/
def get_latest_abstracted_value (db : Store) (patient_id concept_name : String) :
    Option RecordDict :=
  match db patient_id concept_name with
  | [] => none
  | r :: _ => some r

/-! ### Result structures

Each analysis returns a Python dictionary; optionally-present keys are
`Option`-typed, with `none` for an absent key. -/

/-- The `individual_states` sub-dictionary of a hematological result. -/
structure HemaStates where
  hemoglobin_state : Option String
  wbc_level : Option String
  deriving DecidableEq, Repr

/-- Result dictionary of `analyze_patient_hematological_state`. -/
structure HemaResult where
  patient_id : String
  individual_states : HemaStates
  hematological_state : Option String
  error : Option String
  temporal_overlap : Option Bool
  deriving DecidableEq, Repr

/-- The `individual_states` sub-dictionary of a systemic toxicity result. -/
structure ToxStates where
  fever_level : Option String
  chills : Option String
  skin_look : Option String
  allergic_state : Option String
  deriving DecidableEq, Repr

/-- Result dictionary of `analyze_patient_systemic_toxicity`. -/
structure ToxResult where
  patient_id : String
  individual_states : ToxStates
  systemic_toxicity_grade : Option String
  error : Option String
  temporal_overlap : Option Bool
  deriving DecidableEq, Repr

/-- The `clinical_inputs` sub-dictionary of a treatment result. -/
structure ClinicalInputs where
  gender : Option String
  hemoglobin_state : Option String
  hematological_state : Option String
  systemic_toxicity_grade : Option String
  deriving DecidableEq, Repr

/-- Result dictionary of `analyze_treatment`; `clinical_inputs` is absent
(`none`) on every error path. -/
structure TreatmentResult where
  patient_id : String
  clinical_inputs : Option ClinicalInputs
  treatment_recommendations : Option String
  error : Option String
  deriving DecidableEq, Repr

/-! ### Orchestrators -/

/-- `SimpleRuleEngine.analyze_patient_hematological_state`. Dictionary
subscripting outside any `try` block can raise, hence the `Except`. -/
def analyze_patient_hematological_state (table : RuleTable) (db : Store)
    (patient_id : String) : Except PyErr HemaResult :=
  let hemoglobin_record := get_latest_abstracted_value db patient_id "Hemoglobin_Level"
  let wbc_record := get_latest_abstracted_value db patient_id "WBC_Level"
  if !truthyOpt hemoglobin_record || !truthyOpt wbc_record then
    match condValue hemoglobin_record, condValue wbc_record with
    | .error e, _ => .error e
    | .ok _, .error e => .error e
    | .ok hv, .ok wv =>
      .ok ⟨patient_id, ⟨hv, wv⟩, none,
        some "Missing required abstracted data for hematological analysis", none⟩
  else if !check_temporal_overlap [hemoglobin_record, wbc_record] then
    match getValueOpt hemoglobin_record, getValueOpt wbc_record with
    | .error e, _ => .error e
    | .ok _, .error e => .error e
    | .ok hv, .ok wv =>
      .ok ⟨patient_id, ⟨some hv, some wv⟩, none,
        some "No temporal overlap between hemoglobin and WBC measurements", none⟩
  else
    match getValueOpt hemoglobin_record, getValueOpt wbc_record with
    | .error e, _ => .error e
    | .ok _, .error e => .error e
    | .ok hemoglobin_state, .ok wbc_level =>
      .ok ⟨patient_id, ⟨some hemoglobin_state, some wbc_level⟩,
        get_hematological_state table (some hemoglobin_state) (some wbc_level),
        none, some true⟩

/-- The missing-concept collection loop of
`analyze_patient_systemic_toxicity`: the names, in declared order, of the
concepts whose record is falsy. -/
def missingConcepts (records : List (Option RecordDict)) (names : List String) :
    List String :=
  (records.zip names).filterMap (fun p => if truthyOpt p.fst then none else some p.snd)

/-- `SimpleRuleEngine.analyze_patient_systemic_toxicity`. -/
def analyze_patient_systemic_toxicity (table : RuleTable) (db : Store)
    (patient_id : String) : Except PyErr ToxResult :=
  let fever_record := get_latest_abstracted_value db patient_id "Fever_Level"
  let chills_record := get_latest_abstracted_value db patient_id "Chills"
  let skin_record := get_latest_abstracted_value db patient_id "Skin-Look"
  let allergic_record := get_latest_abstracted_value db patient_id "Allergic-State"
  let all_records := [fever_record, chills_record, skin_record, allergic_record]
  let missing := missingConcepts all_records
    ["Fever_Level", "Chills", "Skin-Look", "Allergic-State"]
  if missing ≠ [] then
    match condValue fever_record, condValue chills_record,
          condValue skin_record, condValue allergic_record with
    | .error e, _, _, _ => .error e
    | .ok _, .error e, _, _ => .error e
    | .ok _, .ok _, .error e, _ => .error e
    | .ok _, .ok _, .ok _, .error e => .error e
    | .ok fv, .ok cv, .ok sv, .ok av =>
      .ok ⟨patient_id, ⟨fv, cv, sv, av⟩, none,
        some ("Missing required abstracted data for: " ++ String.intercalate ", " missing),
        none⟩
  else if !check_temporal_overlap all_records then
    match getValueOpt fever_record, getValueOpt chills_record,
          getValueOpt skin_record, getValueOpt allergic_record with
    | .error e, _, _, _ => .error e
    | .ok _, .error e, _, _ => .error e
    | .ok _, .ok _, .error e, _ => .error e
    | .ok _, .ok _, .ok _, .error e => .error e
    | .ok fv, .ok cv, .ok sv, .ok av =>
      .ok ⟨patient_id, ⟨some fv, some cv, some sv, some av⟩, none,
        some "No temporal overlap between all required measurements", none⟩
  else
    match getValueOpt fever_record, getValueOpt chills_record,
          getValueOpt skin_record, getValueOpt allergic_record with
    | .error e, _, _, _ => .error e
    | .ok _, .error e, _, _ => .error e
    | .ok _, .ok _, .error e, _ => .error e
    | .ok _, .ok _, .ok _, .error e => .error e
    | .ok fever_level, .ok chills, .ok skin_look, .ok allergic_state =>
      .ok ⟨patient_id, ⟨some fever_level, some chills, some skin_look, some allergic_state⟩,
        get_systemic_toxicity_grade table (some fever_level) (some chills)
          (some skin_look) (some allergic_state),
        none, some true⟩

/-- The missing-parameter list of `analyze_treatment`, in declared order. -/
def treatmentMissingNames (gender hemoglobin_state hematological_state
    systemic_toxicity_grade : Option String) : List String :=
  (if optStrTruthy gender then [] else ["gender"]) ++
  (if optStrTruthy hemoglobin_state then [] else ["hemoglobin_state"]) ++
  (if optStrTruthy hematological_state then [] else ["hematological_state"]) ++
  (if optStrTruthy systemic_toxicity_grade then [] else ["systemic_toxicity_grade"])

/-- `SimpleRuleEngine.analyze_treatment`: propagates upstream errors first
(hematological before systemic toxicity), then checks the four lookup
inputs for truthiness, then performs the treatment table lookup. Its error
results carry no `clinical_inputs` key. -/
def analyze_treatment (table : RuleTable) (patient_id : String)
    (gender : Option String) (hematological_analysis : HemaResult)
    (systemic_toxicity_analysis : ToxResult) : TreatmentResult :=
  match hematological_analysis.error with
  | some e =>
    ⟨patient_id, none, none, some ("Hematological analysis failed: " ++ e)⟩
  | none =>
    match systemic_toxicity_analysis.error with
    | some e =>
      ⟨patient_id, none, none, some ("Systemic toxicity analysis failed: " ++ e)⟩
    | none =>
      let hemoglobin_state := hematological_analysis.individual_states.hemoglobin_state
      let hematological_state := hematological_analysis.hematological_state
      let systemic_toxicity_grade := systemic_toxicity_analysis.systemic_toxicity_grade
      if !(optStrTruthy gender && optStrTruthy hemoglobin_state &&
           optStrTruthy hematological_state && optStrTruthy systemic_toxicity_grade) then
        ⟨patient_id, none, none,
          some ("Missing required parameters for treatment analysis: " ++
            String.intercalate ", "
              (treatmentMissingNames gender hemoglobin_state hematological_state
                systemic_toxicity_grade))⟩
      else
        ⟨patient_id,
          some ⟨gender, hemoglobin_state, hematological_state, systemic_toxicity_grade⟩,
          apply_rule table
            [("gender", gender.getD ""),
             ("hemoglobin_state", hemoglobin_state.getD ""),
             ("hematological_state", hematological_state.getD ""),
             ("systemic_toxicity_grade", systemic_toxicity_grade.getD "")],
          none⟩

/-! ### Concrete fixtures for witnesses and counterexamples -/

/-- A well-formed record with a value and a valid time window. -/
def goodRec (v : String) (s e : Int) : RecordDict :=
  ⟨some v, some (.valid s), some (.valid e), false⟩

/-- A store with no records at all. -/
def dbEmpty : Store := fun _ _ => []

/-- A store whose every reply is a truthy record dictionary that lacks the
`value` key. -/
def dbNoValue : Store := fun _ _ => [⟨none, none, none, true⟩]

/-- A store with well-formed, mutually overlapping records for every
concept: `Low` hemoglobin, `Low-Low` WBC, `High` for the rest. -/
def dbGood : Store := fun _ c =>
  if c == "Hemoglobin_Level" then [goodRec "Low" 0 10]
  else if c == "WBC_Level" then [goodRec "Low-Low" 0 10]
  else [goodRec "High" 0 10]

/-- A store like `dbGood` except that the fever concept has no record. -/
def dbNoFever : Store := fun _ c =>
  if c == "Fever_Level" then [] else [goodRec "High" 0 10]

/-- A store whose hemoglobin record carries the empty string as value. -/
def dbEmptyValue : Store := fun _ c =>
  if c == "Hemoglobin_Level" then [goodRec "" 0 10] else [goodRec "x" 0 10]

/-- A one-row hematological table keyed on an empty-string input value. -/
def tableEmptyKey : RuleTable :=
  [⟨[("hemoglobin_state", ""), ("wbc_level", "x")], "OUT"⟩]

/-- A one-row hematological table for the pancytopenia scenario. -/
def tableHema : RuleTable :=
  [⟨[("hemoglobin_state", "Low"), ("wbc_level", "Low-Low")], "Pancytopenia"⟩]

/-- Whether `needle` is a leading segment of `hay`. -/
def charsHasPre (needle hay : List Char) : Bool :=
  match needle, hay with
  | [], _ => true
  | _ :: _, [] => false
  | n :: ns, h :: hs => n == h && charsHasPre ns hs

/-- Whether `needle` occurs contiguously anywhere in `hay`. -/
def charsHasSub (needle hay : List Char) : Bool :=
  match hay with
  | [] => needle.isEmpty
  | _ :: hs => charsHasPre needle hay || charsHasSub needle hs

/-- Whether the string `sub` occurs as a substring of `s`. -/
def strContainsSub (s sub : String) : Bool :=
  charsHasSub sub.toList s.toList

/-! ### Helper lemmas -/

theorem parseAll_eq_none_of_parseRec_none {l : List (Option RecordDict)}
    {r : RecordDict} (hmem : some r ∈ l) (hbad : parseRec r = none) :
    parseAll l = none := by
  induction l with
  | nil => cases hmem
  | cons hd tl ih =>
    cases hd with
    | none => rfl
    | some r0 =>
      rcases List.mem_cons.mp hmem with h1 | h1
      · obtain rfl : r0 = r := by injection h1.symm
        simp only [parseAll, hbad]
      · simp only [parseAll]
        cases hpr : parseRec r0 with
        | none => rfl
        | some p => rw [ih h1]; rfl

theorem parseAll_length {l : List (Option RecordDict)} {prs : List (Int × Int)}
    (h : parseAll l = some prs) : prs.length = l.length := by
  induction l generalizing prs with
  | nil => simp only [parseAll, Option.some.injEq] at h; subst h; rfl
  | cons hd tl ih =>
    cases hd with
    | none => simp [parseAll] at h
    | some r =>
      simp only [parseAll] at h
      cases hpr : parseRec r with
      | none => rw [hpr] at h; cases h
      | some p =>
        rw [hpr] at h
        cases hta : parseAll tl with
        | none => rw [hta] at h; cases h
        | some ps =>
          rw [hta] at h
          simp only [Option.map_some', Option.some.injEq] at h
          subst h
          simp [ih hta]

/-- A record reply is value-shaped when, if truthy, it carries the `value`
key; `None` is value-shaped. -/
def valueShaped : Option RecordDict → Bool
  | none => true
  | some r => !r.truthy || r.value.isSome

/-- What `record['value'] if record else None` evaluates to (when it does
not raise). -/
def condSpec : Option RecordDict → Option String
  | none => none
  | some r => if r.truthy then r.value else none

theorem condValue_eq_ok {o : Option RecordDict} (h : valueShaped o = true) :
    condValue o = .ok (condSpec o) := by
  cases o with
  | none => rfl
  | some r =>
    simp only [valueShaped, Bool.or_eq_true, Bool.not_eq_true'] at h
    simp only [condValue, condSpec]
    cases ht : r.truthy with
    | false => simp
    | true =>
      rcases h with h | h
      · rw [ht] at h; cases h
      · obtain ⟨v, hv⟩ := Option.isSome_iff_exists.mp h
        simp [RecordDict.getValue, hv, Except.map]

theorem getValueOpt_eq_ok {o : Option RecordDict} (ht : truthyOpt o = true)
    (h : valueShaped o = true) :
    ∃ v, getValueOpt o = .ok v ∧ condSpec o = some v := by
  cases o with
  | none => cases ht
  | some r =>
    simp only [truthyOpt] at ht
    simp only [valueShaped, Bool.or_eq_true, Bool.not_eq_true'] at h
    rcases h with h | h
    · rw [ht] at h; cases h
    · obtain ⟨v, hv⟩ := Option.isSome_iff_exists.mp h
      exact ⟨v, by simp [getValueOpt, RecordDict.getValue, hv], by simp [condSpec, ht, hv]⟩

/-- Shape of every hematological result the orchestrator can return: the
patient id is echoed, and the result is either an error result (null
derived state, no overlap marker) or a success result whose derived state
is the rule application to its own individual states. -/
theorem analyze_hema_ok_shape (table : RuleTable) (db : Store) (pid : String)
    (r : HemaResult)
    (h : analyze_patient_hematological_state table db pid = .ok r) :
    r.patient_id = pid ∧
    ((∃ e, r.error = some e ∧ r.temporal_overlap = none ∧
        r.hematological_state = none) ∨
     (r.error = none ∧ r.temporal_overlap = some true ∧
       ∃ hv wv, r.individual_states = ⟨some hv, some wv⟩ ∧
         r.hematological_state = get_hematological_state table (some hv) (some wv))) := by
  unfold analyze_patient_hematological_state at h
  dsimp only at h
  split at h
  · split at h
    · cases h
    · cases h
    · injection h with h
      subst h
      exact ⟨rfl, Or.inl ⟨_, rfl, rfl, rfl⟩⟩
  · split at h
    · split at h
      · cases h
      · cases h
      · injection h with h
        subst h
        exact ⟨rfl, Or.inl ⟨_, rfl, rfl, rfl⟩⟩
    · split at h
      · cases h
      · cases h
      · injection h with h
        subst h
        exact ⟨rfl, Or.inr ⟨rfl, rfl, _, _, rfl, rfl⟩⟩

/-- Shape of every systemic toxicity result the orchestrator can return. -/
theorem analyze_tox_ok_shape (table : RuleTable) (db : Store) (pid : String)
    (r : ToxResult)
    (h : analyze_patient_systemic_toxicity table db pid = .ok r) :
    r.patient_id = pid ∧
    ((∃ e, r.error = some e ∧ r.temporal_overlap = none ∧
        r.systemic_toxicity_grade = none) ∨
     (r.error = none ∧ r.temporal_overlap = some true ∧
       ∃ fv cv sv av, r.individual_states = ⟨some fv, some cv, some sv, some av⟩ ∧
         r.systemic_toxicity_grade =
           get_systemic_toxicity_grade table (some fv) (some cv) (some sv) (some av))) := by
  unfold analyze_patient_systemic_toxicity at h
  dsimp only at h
  split at h
  · split at h
    · cases h
    · cases h
    · cases h
    · cases h
    · injection h with h
      subst h
      exact ⟨rfl, Or.inl ⟨_, rfl, rfl, rfl⟩⟩
  · split at h
    · split at h
      · cases h
      · cases h
      · cases h
      · cases h
      · injection h with h
        subst h
        exact ⟨rfl, Or.inl ⟨_, rfl, rfl, rfl⟩⟩
    · split at h
      · cases h
      · cases h
      · cases h
      · cases h
      · injection h with h
        subst h
        exact ⟨rfl, Or.inr ⟨rfl, rfl, _, _, _, _, rfl, rfl⟩⟩

/-- Shape of every treatment result: the patient id is echoed, and the
result has either no error and present clinical inputs, or an error with
clinical inputs absent and null recommendations. -/
theorem analyze_treatment_shape (table : RuleTable) (pid : String)
    (g : Option String) (ha : HemaResult) (ta : ToxResult) :
    (analyze_treatment table pid g ha ta).patient_id = pid ∧
    (((analyze_treatment table pid g ha ta).error = none ∧
      ((analyze_treatment table pid g ha ta).clinical_inputs).isSome = true) ∨
     (∃ e, (analyze_treatment table pid g ha ta).error = some e ∧
       (analyze_treatment table pid g ha ta).clinical_inputs = none ∧
       (analyze_treatment table pid g ha ta).treatment_recommendations = none)) := by
  unfold analyze_treatment
  cases ha.error with
  | some e => exact ⟨rfl, Or.inr ⟨_, rfl, rfl, rfl⟩⟩
  | none =>
    cases ta.error with
    | some e => exact ⟨rfl, Or.inr ⟨_, rfl, rfl, rfl⟩⟩
    | none =>
      dsimp only
      split
      · exact ⟨rfl, Or.inr ⟨_, rfl, rfl, rfl⟩⟩
      · exact ⟨rfl, Or.inl ⟨rfl, rfl⟩⟩

/-- With value-shaped store replies, the hematological analysis always
returns a result (never raises). -/
theorem analyze_hema_total (table : RuleTable) (db : Store) (pid : String)
    (h1 : valueShaped (get_latest_abstracted_value db pid "Hemoglobin_Level") = true)
    (h2 : valueShaped (get_latest_abstracted_value db pid "WBC_Level") = true) :
    ∃ r, analyze_patient_hematological_state table db pid = .ok r := by
  unfold analyze_patient_hematological_state
  dsimp only
  split
  · rw [condValue_eq_ok h1, condValue_eq_ok h2]
    exact ⟨_, rfl⟩
  · rename_i hc
    have hboth : truthyOpt (get_latest_abstracted_value db pid "Hemoglobin_Level") = true ∧
        truthyOpt (get_latest_abstracted_value db pid "WBC_Level") = true := by
      revert hc
      cases truthyOpt (get_latest_abstracted_value db pid "Hemoglobin_Level") <;>
        cases truthyOpt (get_latest_abstracted_value db pid "WBC_Level") <;> simp
    obtain ⟨v1, hv1, _⟩ := getValueOpt_eq_ok hboth.1 h1
    obtain ⟨v2, hv2, _⟩ := getValueOpt_eq_ok hboth.2 h2
    rw [hv1, hv2]
    split
    · exact ⟨_, rfl⟩
    · exact ⟨_, rfl⟩

theorem missingConcepts_four_nil {a b c d : Option RecordDict} {n1 n2 n3 n4 : String}
    (h : missingConcepts [a, b, c, d] [n1, n2, n3, n4] = []) :
    truthyOpt a = true ∧ truthyOpt b = true ∧ truthyOpt c = true ∧ truthyOpt d = true := by
  revert h
  cases ha : truthyOpt a <;> cases hb : truthyOpt b <;> cases hc : truthyOpt c <;>
    cases hd : truthyOpt d <;> simp [missingConcepts, ha, hb, hc, hd]

/-- With value-shaped store replies, the systemic toxicity analysis always
returns a result (never raises). -/
theorem analyze_tox_total (table : RuleTable) (db : Store) (pid : String)
    (h1 : valueShaped (get_latest_abstracted_value db pid "Fever_Level") = true)
    (h2 : valueShaped (get_latest_abstracted_value db pid "Chills") = true)
    (h3 : valueShaped (get_latest_abstracted_value db pid "Skin-Look") = true)
    (h4 : valueShaped (get_latest_abstracted_value db pid "Allergic-State") = true) :
    ∃ r, analyze_patient_systemic_toxicity table db pid = .ok r := by
  unfold analyze_patient_systemic_toxicity
  dsimp only
  split
  · rw [condValue_eq_ok h1, condValue_eq_ok h2, condValue_eq_ok h3, condValue_eq_ok h4]
    exact ⟨_, rfl⟩
  · rename_i hc
    obtain ⟨ht1, ht2, ht3, ht4⟩ := missingConcepts_four_nil (not_not.mp hc)
    have hall : truthyOpt (get_latest_abstracted_value db pid "Fever_Level") = true ∧
        truthyOpt (get_latest_abstracted_value db pid "Chills") = true ∧
        truthyOpt (get_latest_abstracted_value db pid "Skin-Look") = true ∧
        truthyOpt (get_latest_abstracted_value db pid "Allergic-State") = true :=
      ⟨ht1, ht2, ht3, ht4⟩
    obtain ⟨v1, hv1, _⟩ := getValueOpt_eq_ok hall.1 h1
    obtain ⟨v2, hv2, _⟩ := getValueOpt_eq_ok hall.2.1 h2
    obtain ⟨v3, hv3, _⟩ := getValueOpt_eq_ok hall.2.2.1 h3
    obtain ⟨v4, hv4, _⟩ := getValueOpt_eq_ok hall.2.2.2 h4
    rw [hv1, hv2, hv3, hv4]
    split
    · exact ⟨_, rfl⟩
    · exact ⟨_, rfl⟩

/-- Exact result of the hematological analysis when a required record is
missing or falsy: null derived state and the fixed error message. -/
theorem analyze_hema_missing (table : RuleTable) (db : Store) (pid : String)
    (h1 : valueShaped (get_latest_abstracted_value db pid "Hemoglobin_Level") = true)
    (h2 : valueShaped (get_latest_abstracted_value db pid "WBC_Level") = true)
    (hmiss : (truthyOpt (get_latest_abstracted_value db pid "Hemoglobin_Level") &&
              truthyOpt (get_latest_abstracted_value db pid "WBC_Level")) = false) :
    analyze_patient_hematological_state table db pid =
      .ok ⟨pid,
        ⟨condSpec (get_latest_abstracted_value db pid "Hemoglobin_Level"),
         condSpec (get_latest_abstracted_value db pid "WBC_Level")⟩, none,
        some "Missing required abstracted data for hematological analysis", none⟩ := by
  have hcond : (!truthyOpt (get_latest_abstracted_value db pid "Hemoglobin_Level") ||
      !truthyOpt (get_latest_abstracted_value db pid "WBC_Level")) = true := by
    revert hmiss
    cases truthyOpt (get_latest_abstracted_value db pid "Hemoglobin_Level") <;>
      cases truthyOpt (get_latest_abstracted_value db pid "WBC_Level") <;> simp
  unfold analyze_patient_hematological_state
  dsimp only
  rw [if_pos hcond, condValue_eq_ok h1, condValue_eq_ok h2]

/-- Exact result of the systemic toxicity analysis when required records
are missing: null grade and an error message enumerating the missing
concept names, comma-joined, in declared order. -/
theorem analyze_tox_missing (table : RuleTable) (db : Store) (pid : String)
    (h1 : valueShaped (get_latest_abstracted_value db pid "Fever_Level") = true)
    (h2 : valueShaped (get_latest_abstracted_value db pid "Chills") = true)
    (h3 : valueShaped (get_latest_abstracted_value db pid "Skin-Look") = true)
    (h4 : valueShaped (get_latest_abstracted_value db pid "Allergic-State") = true)
    (hmiss : missingConcepts
      [get_latest_abstracted_value db pid "Fever_Level",
       get_latest_abstracted_value db pid "Chills",
       get_latest_abstracted_value db pid "Skin-Look",
       get_latest_abstracted_value db pid "Allergic-State"]
      ["Fever_Level", "Chills", "Skin-Look", "Allergic-State"] ≠ []) :
    analyze_patient_systemic_toxicity table db pid =
      .ok ⟨pid,
        ⟨condSpec (get_latest_abstracted_value db pid "Fever_Level"),
         condSpec (get_latest_abstracted_value db pid "Chills"),
         condSpec (get_latest_abstracted_value db pid "Skin-Look"),
         condSpec (get_latest_abstracted_value db pid "Allergic-State")⟩, none,
        some ("Missing required abstracted data for: " ++ String.intercalate ", "
          (missingConcepts
            [get_latest_abstracted_value db pid "Fever_Level",
             get_latest_abstracted_value db pid "Chills",
             get_latest_abstracted_value db pid "Skin-Look",
             get_latest_abstracted_value db pid "Allergic-State"]
            ["Fever_Level", "Chills", "Skin-Look", "Allergic-State"])), none⟩ := by
  unfold analyze_patient_systemic_toxicity
  dsimp only
  rw [if_pos hmiss, condValue_eq_ok h1, condValue_eq_ok h2, condValue_eq_ok h3,
    condValue_eq_ok h4]

theorem treatmentMissingNames_nil_iff (g hs hms gr : Option String) :
    treatmentMissingNames g hs hms gr = [] ↔
      (optStrTruthy g && optStrTruthy hs && optStrTruthy hms && optStrTruthy gr) = true := by
  unfold treatmentMissingNames
  cases optStrTruthy g <;> cases optStrTruthy hs <;> cases optStrTruthy hms <;>
    cases optStrTruthy gr <;> simp

/-! ### Claims -/

/-- C1 counterexample: a list whose only element is null returns true, not
false — the fewer-than-two early exit precedes the null check. -/
theorem c1_single_null_counterexample :
    check_temporal_overlap [none] = true := rfl

/-- C1 (amended): for every list of at least two records that contains a
null record, `check_temporal_overlap` returns false, regardless of the
other records; the singleton null list instead returns true via the
fewer-than-two early exit. -/
theorem c1_null_record_false (records : List (Option RecordDict))
    (h2 : 2 ≤ records.length) (hmem : none ∈ records) :
    check_temporal_overlap records = false := by
  unfold check_temporal_overlap
  rw [if_neg (by omega), parseAll_eq_none_of_mem_none hmem]

/-- C1 witness: a two-element list with one valid record and one null. -/
theorem c1_null_record_false_witness :
    2 ≤ ([some (goodRec "Low" 0 10), none] : List (Option RecordDict)).length ∧
    check_temporal_overlap [some (goodRec "Low" 0 10), none] = false :=
  ⟨by decide, c1_null_record_false _ (by decide) (by simp)⟩

/-- C4 counterexample: the interval (0,10) fully contains (1,2) and (5,6),
yet the checker returns false, because the two contained intervals share
no common instant — refuting "true whenever one interval contains all
others". -/
theorem c4_containment_counterexample :
    check_temporal_overlap
      [some (goodRec "v" 0 10), some (goodRec "v" 1 2), some (goodRec "v" 5 6)] = false ∧
    (0 : Int) ≤ 1 ∧ (2 : Int) ≤ 10 ∧ (0 : Int) ≤ 5 ∧ (6 : Int) ≤ 10 := by
  exact ⟨rfl, by omega, by omega, by omega, by omega⟩

/-- C4 (amended): lists of 0 or 1 records return true; for lists of two or
more non-null records with parseable timestamps, the checker returns true
iff the maximum of the start times is at most the minimum of the end times
(so false for every set sharing no common instant); containment of all
others by one interval guarantees true for two-record sets. -/
theorem c4_overlap_characterization (records : List (Option RecordDict)) :
    (records.length < 2 → check_temporal_overlap records = true) ∧
    (∀ prs, parseAll records = some prs → 2 ≤ records.length →
      (check_temporal_overlap records = true ↔ latestStart prs ≤ earliestEnd prs)) ∧
    (∀ s1 e1 s2 e2, parseAll records = some [(s1, e1), (s2, e2)] →
      s1 ≤ s2 → s2 ≤ e2 → e2 ≤ e1 → check_temporal_overlap records = true) := by
  refine ⟨?_, ?_, ?_⟩
  · intro h
    unfold check_temporal_overlap
    rw [if_pos h]
  · intro prs hp h2
    unfold check_temporal_overlap
    rw [if_neg (by omega), hp]
    exact decide_eq_true_iff
  · intro s1 e1 s2 e2 hp hs1 hs2 he
    have hlen : records.length = 2 := by
      have h := parseAll_length hp
      simpa using h.symm
    unfold check_temporal_overlap
    rw [if_neg (by omega), hp]
    rw [decide_eq_true_eq]
    show max s1 s2 ≤ min e1 e2
    apply max_le <;> apply le_min <;> omega

/-- C4 witness: two overlapping parseable records, the second contained in
the first. -/
theorem c4_overlap_characterization_witness :
    parseAll [some (goodRec "a" 0 9), some (goodRec "b" 3 8)] = some [(0, 9), (3, 8)] ∧
    check_temporal_overlap [some (goodRec "a" 0 9), some (goodRec "b" 3 8)] = true :=
  ⟨by decide,
    (c4_overlap_characterization _).2.2 0 9 3 8 (by decide) (by decide) (by decide)
      (by decide)⟩

/-- C8: for every list of two or more records one of which has a
timestamp that fails to parse, `check_temporal_overlap` returns false; in
the embedding it is a total function into `Bool`, so it raises nothing. -/
theorem c8_malformed_timestamp_false (records : List (Option RecordDict))
    (r : RecordDict) (h2 : 2 ≤ records.length) (hmem : some r ∈ records)
    (hbad : (∃ st, r.start_time = some st ∧ to_datetime st = none) ∨
            (∃ et, r.end_time = some et ∧ to_datetime et = none)) :
    check_temporal_overlap records = false := by
  have hpr : parseRec r = none := by
    rcases hbad with ⟨st, hst, hdt⟩ | ⟨et, het, hdt⟩
    · simp [parseRec, hst, hdt]
    · cases hs : r.start_time with
      | none => simp [parseRec, hs]
      | some st2 =>
        cases hds : to_datetime st2 with
        | none => simp [parseRec, hs, hds]
        | some s => simp [parseRec, hs, hds, het, hdt]
  unfold check_temporal_overlap
  rw [if_neg (by omega), parseAll_eq_none_of_parseRec_none hmem hpr]

/-- C2 counterexample: an error-carrying treatment result contains no
`clinical_inputs` key at all, refuting "every result ... contains ... the
raw-inputs field". -/
theorem c2_missing_raw_inputs_counterexample :
    (analyze_treatment [] "p1" (some "Male")
      ⟨"p1", ⟨some "Low", some "Low-Low"⟩, none,
        some "Missing required abstracted data for hematological analysis", none⟩
      ⟨"p1", ⟨none, none, none, none⟩, none, none, some true⟩).clinical_inputs = none ∧
    (analyze_treatment [] "p1" (some "Male")
      ⟨"p1", ⟨some "Low", some "Low-Low"⟩, none,
        some "Missing required abstracted data for hematological analysis", none⟩
      ⟨"p1", ⟨none, none, none, none⟩, none, none, some true⟩).error.isSome = true :=
  ⟨rfl, rfl⟩

/-- C2 (amended): every result echoes `patient_id`; hematological and
toxicity results (which always carry `individual_states`) have either no
error and the `temporal_overlap` marker, or an error string with the
marker absent and the derived value null; treatment results have either no
error and `clinical_inputs` present, or an error string with
`clinical_inputs` absent and null recommendations — never both an error
and the marker/inputs. -/
theorem c2_result_field_conventions (table : RuleTable) (db : Store) (pid : String)
    (g : Option String) (ha : HemaResult) (ta : ToxResult)
    (r1 : HemaResult) (r2 : ToxResult)
    (hok1 : analyze_patient_hematological_state table db pid = .ok r1)
    (hok2 : analyze_patient_systemic_toxicity table db pid = .ok r2) :
    (r1.patient_id = pid ∧
      ((r1.error = none ∧ r1.temporal_overlap = some true) ∨
       (r1.error.isSome = true ∧ r1.temporal_overlap = none ∧
         r1.hematological_state = none))) ∧
    (r2.patient_id = pid ∧
      ((r2.error = none ∧ r2.temporal_overlap = some true) ∨
       (r2.error.isSome = true ∧ r2.temporal_overlap = none ∧
         r2.systemic_toxicity_grade = none))) ∧
    ((analyze_treatment table pid g ha ta).patient_id = pid ∧
      (((analyze_treatment table pid g ha ta).error = none ∧
        ((analyze_treatment table pid g ha ta).clinical_inputs).isSome = true) ∨
       ((analyze_treatment table pid g ha ta).error.isSome = true ∧
        (analyze_treatment table pid g ha ta).clinical_inputs = none ∧
        (analyze_treatment table pid g ha ta).treatment_recommendations = none))) := by
  obtain ⟨hp1, hs1⟩ := analyze_hema_ok_shape table db pid r1 hok1
  obtain ⟨hp2, hs2⟩ := analyze_tox_ok_shape table db pid r2 hok2
  obtain ⟨hp3, hs3⟩ := analyze_treatment_shape table pid g ha ta
  refine ⟨⟨hp1, ?_⟩, ⟨hp2, ?_⟩, ⟨hp3, ?_⟩⟩
  · rcases hs1 with ⟨e, he, hm, hd⟩ | ⟨he, hm, -⟩
    · exact Or.inr ⟨by simp [he], hm, hd⟩
    · exact Or.inl ⟨he, hm⟩
  · rcases hs2 with ⟨e, he, hm, hd⟩ | ⟨he, hm, -⟩
    · exact Or.inr ⟨by simp [he], hm, hd⟩
    · exact Or.inl ⟨he, hm⟩
  · rcases hs3 with ⟨he, hc⟩ | ⟨e, he, hc, ht⟩
    · exact Or.inl ⟨he, hc⟩
    · exact Or.inr ⟨by simp [he], hc, ht⟩

/-- C2 witness: an empty store (both analyses end in missing-data errors)
and concrete upstream results for the treatment analysis. -/
theorem c2_result_field_conventions_witness :
    ((⟨"p1", ⟨none, none⟩, none,
        some "Missing required abstracted data for hematological analysis", none⟩ :
        HemaResult).patient_id = "p1" ∧
      (((⟨"p1", ⟨none, none⟩, none,
          some "Missing required abstracted data for hematological analysis", none⟩ :
          HemaResult).error = none ∧
        (⟨"p1", ⟨none, none⟩, none,
          some "Missing required abstracted data for hematological analysis", none⟩ :
          HemaResult).temporal_overlap = some true) ∨
       ((⟨"p1", ⟨none, none⟩, none,
          some "Missing required abstracted data for hematological analysis", none⟩ :
          HemaResult).error.isSome = true ∧
        (⟨"p1", ⟨none, none⟩, none,
          some "Missing required abstracted data for hematological analysis", none⟩ :
          HemaResult).temporal_overlap = none ∧
        (⟨"p1", ⟨none, none⟩, none,
          some "Missing required abstracted data for hematological analysis", none⟩ :
          HemaResult).hematological_state = none))) ∧
    ((⟨"p1", ⟨none, none, none, none⟩, none,
        some ("Missing required abstracted data for: " ++ String.intercalate ", "
          ["Fever_Level", "Chills", "Skin-Look", "Allergic-State"]), none⟩ :
        ToxResult).patient_id = "p1" ∧
      (((⟨"p1", ⟨none, none, none, none⟩, none,
          some ("Missing required abstracted data for: " ++ String.intercalate ", "
            ["Fever_Level", "Chills", "Skin-Look", "Allergic-State"]), none⟩ :
          ToxResult).error = none ∧
        (⟨"p1", ⟨none, none, none, none⟩, none,
          some ("Missing required abstracted data for: " ++ String.intercalate ", "
            ["Fever_Level", "Chills", "Skin-Look", "Allergic-State"]), none⟩ :
          ToxResult).temporal_overlap = some true) ∨
       ((⟨"p1", ⟨none, none, none, none⟩, none,
          some ("Missing required abstracted data for: " ++ String.intercalate ", "
            ["Fever_Level", "Chills", "Skin-Look", "Allergic-State"]), none⟩ :
          ToxResult).error.isSome = true ∧
        (⟨"p1", ⟨none, none, none, none⟩, none,
          some ("Missing required abstracted data for: " ++ String.intercalate ", "
            ["Fever_Level", "Chills", "Skin-Look", "Allergic-State"]), none⟩ :
          ToxResult).temporal_overlap = none ∧
        (⟨"p1", ⟨none, none, none, none⟩, none,
          some ("Missing required abstracted data for: " ++ String.intercalate ", "
            ["Fever_Level", "Chills", "Skin-Look", "Allergic-State"]), none⟩ :
          ToxResult).systemic_toxicity_grade = none))) ∧
    ((analyze_treatment tableHema "p1" (some "Male")
        ⟨"p1", ⟨some "Low", some "Low-Low"⟩, some "Pancytopenia", none, some true⟩
        ⟨"p1", ⟨some "High", some "Rigor", some "Erythema", some "Edema"⟩,
          some "GRADE I", none, some true⟩).patient_id = "p1" ∧
      (((analyze_treatment tableHema "p1" (some "Male")
          ⟨"p1", ⟨some "Low", some "Low-Low"⟩, some "Pancytopenia", none, some true⟩
          ⟨"p1", ⟨some "High", some "Rigor", some "Erythema", some "Edema"⟩,
            some "GRADE I", none, some true⟩).error = none ∧
        ((analyze_treatment tableHema "p1" (some "Male")
          ⟨"p1", ⟨some "Low", some "Low-Low"⟩, some "Pancytopenia", none, some true⟩
          ⟨"p1", ⟨some "High", some "Rigor", some "Erythema", some "Edema"⟩,
            some "GRADE I", none, some true⟩).clinical_inputs).isSome = true) ∨
       ((analyze_treatment tableHema "p1" (some "Male")
          ⟨"p1", ⟨some "Low", some "Low-Low"⟩, some "Pancytopenia", none, some true⟩
          ⟨"p1", ⟨some "High", some "Rigor", some "Erythema", some "Edema"⟩,
            some "GRADE I", none, some true⟩).error.isSome = true ∧
        (analyze_treatment tableHema "p1" (some "Male")
          ⟨"p1", ⟨some "Low", some "Low-Low"⟩, some "Pancytopenia", none, some true⟩
          ⟨"p1", ⟨some "High", some "Rigor", some "Erythema", some "Edema"⟩,
            some "GRADE I", none, some true⟩).clinical_inputs = none ∧
        (analyze_treatment tableHema "p1" (some "Male")
          ⟨"p1", ⟨some "Low", some "Low-Low"⟩, some "Pancytopenia", none, some true⟩
          ⟨"p1", ⟨some "High", some "Rigor", some "Erythema", some "Edema"⟩,
            some "GRADE I", none, some true⟩).treatment_recommendations = none))) :=
  c2_result_field_conventions tableHema dbEmpty "p1" (some "Male")
    ⟨"p1", ⟨some "Low", some "Low-Low"⟩, some "Pancytopenia", none, some true⟩
    ⟨"p1", ⟨some "High", some "Rigor", some "Erythema", some "Edema"⟩,
      some "GRADE I", none, some true⟩
    _ _ rfl rfl

/-- C3 counterexample: when the hemoglobin record is missing, the
hematological error message is a fixed sentence that names neither
`Hemoglobin_Level` nor `WBC_Level`, refuting the enumeration requirement
for the hematological analysis. -/
theorem c3_hema_message_counterexample :
    analyze_patient_hematological_state [] dbEmpty "p1" =
      .ok ⟨"p1", ⟨none, none⟩, none,
        some "Missing required abstracted data for hematological analysis", none⟩ ∧
    strContainsSub "Missing required abstracted data for hematological analysis"
      "Hemoglobin_Level" = false ∧
    strContainsSub "Missing required abstracted data for hematological analysis"
      "WBC_Level" = false :=
  ⟨rfl, by decide, by decide⟩

/-- C3 (amended): when required records are missing the derived value is
null; the systemic toxicity error enumerates each missing concept name,
comma-joined, preserving declared order (hence it contains "Fever_Level"
exactly when the fever record is absent) — but the hematological error is
a fixed message that does not name the missing concepts. -/
theorem c3_missing_data_reporting (table : RuleTable) (db : Store) (pid : String)
    (hs1 : valueShaped (get_latest_abstracted_value db pid "Hemoglobin_Level") = true)
    (hs2 : valueShaped (get_latest_abstracted_value db pid "WBC_Level") = true)
    (hs3 : valueShaped (get_latest_abstracted_value db pid "Fever_Level") = true)
    (hs4 : valueShaped (get_latest_abstracted_value db pid "Chills") = true)
    (hs5 : valueShaped (get_latest_abstracted_value db pid "Skin-Look") = true)
    (hs6 : valueShaped (get_latest_abstracted_value db pid "Allergic-State") = true) :
    ((truthyOpt (get_latest_abstracted_value db pid "Hemoglobin_Level") &&
      truthyOpt (get_latest_abstracted_value db pid "WBC_Level")) = false →
      analyze_patient_hematological_state table db pid =
        .ok ⟨pid,
          ⟨condSpec (get_latest_abstracted_value db pid "Hemoglobin_Level"),
           condSpec (get_latest_abstracted_value db pid "WBC_Level")⟩, none,
          some "Missing required abstracted data for hematological analysis", none⟩) ∧
    (missingConcepts
        [get_latest_abstracted_value db pid "Fever_Level",
         get_latest_abstracted_value db pid "Chills",
         get_latest_abstracted_value db pid "Skin-Look",
         get_latest_abstracted_value db pid "Allergic-State"]
        ["Fever_Level", "Chills", "Skin-Look", "Allergic-State"] ≠ [] →
      analyze_patient_systemic_toxicity table db pid =
        .ok ⟨pid,
          ⟨condSpec (get_latest_abstracted_value db pid "Fever_Level"),
           condSpec (get_latest_abstracted_value db pid "Chills"),
           condSpec (get_latest_abstracted_value db pid "Skin-Look"),
           condSpec (get_latest_abstracted_value db pid "Allergic-State")⟩, none,
          some ("Missing required abstracted data for: " ++ String.intercalate ", "
            (missingConcepts
              [get_latest_abstracted_value db pid "Fever_Level",
               get_latest_abstracted_value db pid "Chills",
               get_latest_abstracted_value db pid "Skin-Look",
               get_latest_abstracted_value db pid "Allergic-State"]
              ["Fever_Level", "Chills", "Skin-Look", "Allergic-State"])), none⟩) :=
  ⟨fun hm => analyze_hema_missing table db pid hs1 hs2 hm,
   fun hm => analyze_tox_missing table db pid hs3 hs4 hs5 hs6 hm⟩

/-- C3 witness: an empty store for the hematological fixed message; a
store missing only the fever record for the enumerating toxicity message,
whose error names exactly `Fever_Level`. -/
theorem c3_missing_data_reporting_witness :
    analyze_patient_hematological_state [] dbEmpty "p1" =
      .ok ⟨"p1", ⟨none, none⟩, none,
        some "Missing required abstracted data for hematological analysis", none⟩ ∧
    analyze_patient_systemic_toxicity [] dbNoFever "p1" =
      .ok ⟨"p1", ⟨none, some "High", some "High", some "High"⟩, none,
        some "Missing required abstracted data for: Fever_Level", none⟩ := by
  constructor
  · exact (c3_missing_data_reporting [] dbEmpty "p1" rfl rfl rfl rfl rfl rfl).1 (by decide)
  · exact (c3_missing_data_reporting [] dbNoFever "p1" (by decide) (by decide) (by decide)
      (by decide) (by decide) (by decide)).2 (by decide)

/-- C8 witness: a valid record next to one whose start time is
malformed. -/
theorem c8_malformed_timestamp_false_witness :
    2 ≤ ([some (goodRec "A" 0 10),
          some (⟨some "B", some .malformed, some (.valid 5), false⟩ : RecordDict)] :
          List (Option RecordDict)).length ∧
    check_temporal_overlap
      [some (goodRec "A" 0 10),
       some (⟨some "B", some .malformed, some (.valid 5), false⟩ : RecordDict)] = false :=
  ⟨by decide,
    c8_malformed_timestamp_false _
      (⟨some "B", some .malformed, some (.valid 5), false⟩ : RecordDict)
      (by decide) (by simp) (Or.inl ⟨.malformed, rfl, rfl⟩)⟩

/-- C5 counterexample: a store reply that is truthy but lacks the `value`
key makes the hematological analysis raise a `KeyError` to its caller
instead of returning a result. -/
theorem c5_raise_counterexample :
    analyze_patient_hematological_state [] dbNoValue "p1" =
      .error (.keyError "value") := rfl

/-- C5 (amended): whenever every store reply is value-shaped (a truthy
record carries the `value` key), the hematological and systemic toxicity
analyses return a structured result and never raise; `analyze_treatment`
is a total function into `TreatmentResult` by construction. Oddly-shaped
truthy replies, however, can raise (see the counterexample). -/
theorem c5_no_raise_when_value_shaped (table : RuleTable) (db : Store) (pid : String)
    (hs1 : valueShaped (get_latest_abstracted_value db pid "Hemoglobin_Level") = true)
    (hs2 : valueShaped (get_latest_abstracted_value db pid "WBC_Level") = true)
    (hs3 : valueShaped (get_latest_abstracted_value db pid "Fever_Level") = true)
    (hs4 : valueShaped (get_latest_abstracted_value db pid "Chills") = true)
    (hs5 : valueShaped (get_latest_abstracted_value db pid "Skin-Look") = true)
    (hs6 : valueShaped (get_latest_abstracted_value db pid "Allergic-State") = true) :
    (∃ r, analyze_patient_hematological_state table db pid = .ok r) ∧
    (∃ r, analyze_patient_systemic_toxicity table db pid = .ok r) :=
  ⟨analyze_hema_total table db pid hs1 hs2,
   analyze_tox_total table db pid hs3 hs4 hs5 hs6⟩

/-- C5 witness: a fully-populated well-shaped store. -/
theorem c5_no_raise_witness :
    (∃ r, analyze_patient_hematological_state tableHema dbGood "p1" = .ok r) ∧
    (∃ r, analyze_patient_systemic_toxicity tableHema dbGood "p1" = .ok r) :=
  c5_no_raise_when_value_shaped tableHema dbGood "p1" (by decide) (by decide)
    (by decide) (by decide) (by decide) (by decide)

/-- C6: whenever the hematological upstream result carries an error `e`,
`analyze_treatment` returns immediately with null recommendations and the
error "Hematological analysis failed: " followed by `e`; when only the
toxicity upstream result carries an error, symmetrically with "Systemic
toxicity analysis failed: ". -/
theorem c6_upstream_error_propagation (table : RuleTable) (pid : String)
    (g : Option String) (ha : HemaResult) (ta : ToxResult) :
    (∀ e, ha.error = some e →
      analyze_treatment table pid g ha ta =
        ⟨pid, none, none, some ("Hematological analysis failed: " ++ e)⟩) ∧
    (∀ e, ha.error = none → ta.error = some e →
      analyze_treatment table pid g ha ta =
        ⟨pid, none, none, some ("Systemic toxicity analysis failed: " ++ e)⟩) := by
  constructor
  · intro e he
    unfold analyze_treatment
    rw [he]
  · intro e he hte
    unfold analyze_treatment
    rw [he]
    dsimp only
    rw [hte]

/-- C6 witness: concrete erroring upstream results of each kind. -/
theorem c6_upstream_error_propagation_witness :
    analyze_treatment [] "p1" (some "Male")
      ⟨"p1", ⟨some "Low", some "Low-Low"⟩, none, some "boom", none⟩
      ⟨"p1", ⟨none, none, none, none⟩, none, none, some true⟩ =
      ⟨"p1", none, none, some "Hematological analysis failed: boom"⟩ ∧
    analyze_treatment [] "p1" (some "Male")
      ⟨"p1", ⟨some "Low", some "Low-Low"⟩, some "Pancytopenia", none, some true⟩
      ⟨"p1", ⟨none, none, none, none⟩, none, some "tox boom", none⟩ =
      ⟨"p1", none, none, some "Systemic toxicity analysis failed: tox boom"⟩ :=
  ⟨(c6_upstream_error_propagation [] "p1" (some "Male")
      ⟨"p1", ⟨some "Low", some "Low-Low"⟩, none, some "boom", none⟩
      ⟨"p1", ⟨none, none, none, none⟩, none, none, some true⟩).1 "boom" rfl,
   (c6_upstream_error_propagation [] "p1" (some "Male")
      ⟨"p1", ⟨some "Low", some "Low-Low"⟩, some "Pancytopenia", none, some true⟩
      ⟨"p1", ⟨none, none, none, none⟩, none, some "tox boom", none⟩).2 "tox boom" rfl rfl⟩

/-- C7: with error-free upstream results, the treatment lookup inputs are
exactly the caller-supplied gender, the hematological result's raw
`individual_states.hemoglobin_state`, its derived `hematological_state`,
and the toxicity result's derived grade; if any of the four is absent the
result is an error enumerating the specific missing names, otherwise the
table lookup runs on those four values. -/
theorem c7_treatment_input_extraction (table : RuleTable) (pid : String)
    (g : Option String) (ha : HemaResult) (ta : ToxResult)
    (hne : ha.error = none) (tne : ta.error = none) :
    (treatmentMissingNames g ha.individual_states.hemoglobin_state
        ha.hematological_state ta.systemic_toxicity_grade ≠ [] →
      analyze_treatment table pid g ha ta =
        ⟨pid, none, none,
          some ("Missing required parameters for treatment analysis: " ++
            String.intercalate ", "
              (treatmentMissingNames g ha.individual_states.hemoglobin_state
                ha.hematological_state ta.systemic_toxicity_grade))⟩) ∧
    (treatmentMissingNames g ha.individual_states.hemoglobin_state
        ha.hematological_state ta.systemic_toxicity_grade = [] →
      analyze_treatment table pid g ha ta =
        ⟨pid,
          some ⟨g, ha.individual_states.hemoglobin_state, ha.hematological_state,
            ta.systemic_toxicity_grade⟩,
          apply_rule table
            [("gender", g.getD ""),
             ("hemoglobin_state", (ha.individual_states.hemoglobin_state).getD ""),
             ("hematological_state", (ha.hematological_state).getD ""),
             ("systemic_toxicity_grade", (ta.systemic_toxicity_grade).getD "")],
          none⟩) := by
  constructor
  · intro hm
    have hchain : (optStrTruthy g && optStrTruthy ha.individual_states.hemoglobin_state &&
        optStrTruthy ha.hematological_state &&
        optStrTruthy ta.systemic_toxicity_grade) = false := by
      cases hb : (optStrTruthy g && optStrTruthy ha.individual_states.hemoglobin_state &&
          optStrTruthy ha.hematological_state &&
          optStrTruthy ta.systemic_toxicity_grade) with
      | false => rfl
      | true =>
        exact absurd ((treatmentMissingNames_nil_iff g
          ha.individual_states.hemoglobin_state ha.hematological_state
          ta.systemic_toxicity_grade).mpr hb) hm
    have hnot : (!(optStrTruthy g && optStrTruthy ha.individual_states.hemoglobin_state &&
        optStrTruthy ha.hematological_state &&
        optStrTruthy ta.systemic_toxicity_grade)) = true := by
      rw [hchain]; rfl
    unfold analyze_treatment
    rw [hne]
    dsimp only
    rw [tne]
    dsimp only
    rw [if_pos hnot]
  · intro hnil
    have hchain := (treatmentMissingNames_nil_iff g
      ha.individual_states.hemoglobin_state ha.hematological_state
      ta.systemic_toxicity_grade).mp hnil
    have hnot : ¬((!(optStrTruthy g && optStrTruthy ha.individual_states.hemoglobin_state &&
        optStrTruthy ha.hematological_state &&
        optStrTruthy ta.systemic_toxicity_grade)) = true) := by
      rw [hchain]; simp
    unfold analyze_treatment
    rw [hne]
    dsimp only
    rw [tne]
    dsimp only
    rw [if_neg hnot]

/-- C7 witness: all four inputs present; the clinical inputs carry the raw
hemoglobin state "Low", not the derived "Pancytopenia". -/
theorem c7_treatment_input_extraction_witness :
    analyze_treatment [] "p1" (some "Male")
      ⟨"p1", ⟨some "Low", some "Low-Low"⟩, some "Pancytopenia", none, some true⟩
      ⟨"p1", ⟨some "High", some "Rigor", some "Erythema", some "Edema"⟩,
        some "GRADE I", none, some true⟩ =
      ⟨"p1", some ⟨some "Male", some "Low", some "Pancytopenia", some "GRADE I"⟩,
        apply_rule []
          [("gender", "Male"), ("hemoglobin_state", "Low"),
           ("hematological_state", "Pancytopenia"),
           ("systemic_toxicity_grade", "GRADE I")],
        none⟩ :=
  (c7_treatment_input_extraction [] "p1" (some "Male")
    ⟨"p1", ⟨some "Low", some "Low-Low"⟩, some "Pancytopenia", none, some true⟩
    ⟨"p1", ⟨some "High", some "Rigor", some "Erythema", some "Edema"⟩,
      some "GRADE I", none, some true⟩ rfl rfl).2 (by decide)

/-- C9 counterexample: a successful hematological result whose hemoglobin
value is the empty string reports a null state (the short-circuit skips
the table), while feeding the same `individual_states` straight into
`apply_rule` with the same table finds a row — so the round-trip fails. -/
theorem c9_empty_value_counterexample :
    analyze_patient_hematological_state tableEmptyKey dbEmptyValue "p1" =
      .ok ⟨"p1", ⟨some "", some "x"⟩, none, none, some true⟩ ∧
    apply_rule tableEmptyKey [("hemoglobin_state", ""), ("wbc_level", "x")] =
      some "OUT" :=
  ⟨rfl, rfl⟩

/-- C9 (amended): for every successful (error-free) hematological result
whose `individual_states` values are both non-empty, applying the same
rule table to those values yields exactly the reported
`hematological_state`; with an empty-string value the orchestrator
reports null without consulting the table, which a direct lookup need not
match. -/
theorem c9_roundtrip_nonempty (table : RuleTable) (db : Store) (pid : String)
    (r : HemaResult) (hv wv : String)
    (hok : analyze_patient_hematological_state table db pid = .ok r)
    (herr : r.error = none)
    (hst : r.individual_states = ⟨some hv, some wv⟩)
    (hhv : hv.isEmpty = false) (hwv : wv.isEmpty = false) :
    apply_rule table [("hemoglobin_state", hv), ("wbc_level", wv)] =
      r.hematological_state := by
  obtain ⟨-, hshape⟩ := analyze_hema_ok_shape table db pid r hok
  rcases hshape with ⟨e, he, -, -⟩ | ⟨-, -, hv2, wv2, hst2, hderiv⟩
  · rw [herr] at he; cases he
  · rw [hst] at hst2
    simp only [HemaStates.mk.injEq, Option.some.injEq] at hst2
    obtain ⟨rfl, rfl⟩ := hst2
    rw [hderiv]
    unfold get_hematological_state
    simp [optStrTruthy, hhv, hwv]

/-- C9 witness: the pancytopenia scenario round-trips. -/
theorem c9_roundtrip_nonempty_witness :
    apply_rule tableHema [("hemoglobin_state", "Low"), ("wbc_level", "Low-Low")] =
      (⟨"p1", ⟨some "Low", some "Low-Low"⟩, some "Pancytopenia", none, some true⟩ :
        HemaResult).hematological_state :=
  c9_roundtrip_nonempty tableHema dbGood "p1"
    ⟨"p1", ⟨some "Low", some "Low-Low"⟩, some "Pancytopenia", none, some true⟩
    "Low" "Low-Low" rfl rfl rfl rfl rfl

/-- C10: `get_hematological_state` and `get_systemic_toxicity_grade`
return null whenever any input is null or the empty string, for every rule
table — i.e. without consulting the table. -/
theorem c10_falsy_input_null (table : RuleTable) :
    (∀ h w : Option String,
      (h = none ∨ h = some "" ∨ w = none ∨ w = some "") →
      get_hematological_state table h w = none) ∧
    (∀ f c s a : Option String,
      (f = none ∨ f = some "" ∨ c = none ∨ c = some "" ∨
       s = none ∨ s = some "" ∨ a = none ∨ a = some "") →
      get_systemic_toxicity_grade table f c s a = none) := by
  have hie : "".isEmpty = true := rfl
  constructor
  · intro h w hc
    unfold get_hematological_state
    rcases hc with rfl | rfl | rfl | rfl <;> simp [optStrTruthy, hie]
  · intro f c s a hc
    unfold get_systemic_toxicity_grade
    rcases hc with rfl | rfl | rfl | rfl | rfl | rfl | rfl | rfl <;>
      simp [optStrTruthy, hie]

/-- C10 witness: a null first input and an empty-string first input. -/
theorem c10_falsy_input_null_witness :
    get_hematological_state [] none (some "Low-Low") = none ∧
    get_systemic_toxicity_grade [] (some "") (some "Rigor") (some "Erythema")
      (some "Edema") = none :=
  ⟨(c10_falsy_input_null []).1 none (some "Low-Low") (Or.inl rfl),
   (c10_falsy_input_null []).2 (some "") (some "Rigor") (some "Erythema")
     (some "Edema") (Or.inr (Or.inl rfl))⟩
